import Mathlib

/-!
Shallow embedding of the weatherhub core (github.com/ardnew/weatherhub):
the shared model singleton (package model), the WiFi connect backoff wait
(package wifi), the NTP client (package ntp: Sync, isExpired, write, read,
parse), and the Connecting branch of the controller loop (package run).

Conventions of the embedding:
- time.Time instants are Int nanosecond-scale time units measured from the
  zero value of time.Time, so the zero value itself is 0 and IsZero is an
  equality test with 0.
- time.Duration values are Int time units; time.Sub saturates at the
  Duration bounds, as documented for the Go time package.
- impure inputs (the ready predicate polled by the connect wait, the socket
  reads polled by the NTP read loop, name resolution, socket dialing and the
  request round trip inside Sync) are passed explicitly as functions or
  Except values keyed by call index.
- loops whose Go source can run unboundedly are given an explicit fuel
  argument; exhausting the fuel returns a distinguished value meaning the
  loop was still running after that many iterations.
-/

namespace Weatherhub

/-- Status values of the program state machine (package model). -/
inductive Status where
  | idle
  | disconnected
  | connecting
  | unsynchronized
  | synchronized
deriving DecidableEq, Repr

/-- An access point entry (package network): SSID and passphrase. -/
structure AP where
  ssid : String
  pass : String
deriving DecidableEq, Repr

/-- The singleton Model record shared by all packages (package model).
IP addresses are abstracted to Nat. -/
structure Model where
  ap : AP
  ip : Nat
  time : Int
  retry : Nat
  status : Status
deriving DecidableEq, Repr

/-- The private state of package model: the Model data plus the changed
flag. The mutex is irrelevant under the sequential embedding. -/
structure MState where
  data : Model
  changed : Bool
deriving DecidableEq, Repr

/-- model.Get: returns the changed flag and a copy of the data, and clears
the flag. -/
def Get (s : MState) : (Bool × Model) × MState :=
  ((s.changed, s.data), { s with changed := false })

/-- model.Set: applies the closure to the data and sets the changed flag. -/
def Set (f : Model → Model) (s : MState) : MState :=
  { data := f s.data, changed := true }

/-- model.Mod: applies the closure to the data; the changed flag is
unaffected. -/
def Mod (f : Model → Model) (s : MState) : MState :=
  { s with data := f s.data }

/-- Largest value of the Go time.Duration type (int64 nanoseconds). -/
def maxDuration : Int := 2 ^ 63 - 1

/-- Smallest value of the Go time.Duration type. -/
def minDuration : Int := -(2 ^ 63)

/-- Go time.Time.Sub: the difference, saturated at the Duration bounds. -/
def timeSub (t u : Int) : Int :=
  max minDuration (min maxDuration (t - u))

/-- Go time.Time.IsZero under the instant embedding. -/
def timeIsZero (t : Int) : Bool :=
  t == 0

/-- ntp.isExpired from the source: at.IsZero() || at.Sub(since) >= span.
Note the zero test is applied to the first argument (the current time),
exactly as in the source. -/
def isExpired (t since span : Int) : Bool :=
  timeIsZero t || decide (span ≤ timeSub t since)

/-- NTP client configuration (package ntp). -/
structure Config where
  server : List String
  remotePort : Nat
  localPort : Nat
  tzOffset : Int
  interval : Int
  precision : Int
  leapSmear : Bool
deriving DecidableEq, Repr

/-- NTP client session state (package ntp): configuration, the lastSync and
lastPost instants (zero value when never set), and the reusable 48-byte
datagram buffer. -/
structure NTP where
  config : Config
  lastSync : Int
  lastPost : Int
  datagram : List Nat
deriving DecidableEq, Repr

/-- The method form of isExpired: pairs the system (lastSync/Interval) and
model (lastPost/Precision) expirations at the same instant. -/
def NTP.isExpiredAt (n : NTP) (t : Int) : Bool × Bool :=
  (isExpired t n.lastSync n.config.interval,
   isExpired t n.lastPost n.config.precision)

/-- Length of an NTP datagram in bytes. -/
def datagramSize : Nat := 48

/-- datagram.reset: zeroize the buffer (length preserved). -/
def dreset (d : List Nat) : List Nat :=
  d.map (fun _ => 0)

/-- ntp.write, datagram construction only: the sequence of byte stores
performed on the reset buffer before it is handed to conn.Write. -/
def writeRequest (leapSmear : Bool) (d : List Nat) : List Nat :=
  let d0 := dreset d
  let d1 := d0.set 0 0b11100011
  let d2 := if !leapSmear then d1.set 0 (d1.getD 0 0 ||| 0b00000011) else d1
  let d3 := ((d2.set 1 0).set 2 6).set 3 0xEC
  (((d3.set 12 49).set 13 0x4E).set 14 49).set 15 52

/-- The request bytes the construction above produces: header bytes 227, 0,
6, 0xEC, zero root delay and dispersion, reference identifier 49 0x4E 49 52,
and zeros elsewhere. -/
def expectedRequest : List Nat :=
  [0b11100011, 0, 6, 0xEC, 0, 0, 0, 0, 0, 0, 0, 0, 49, 0x4E, 49, 52] ++
    List.replicate 32 0

/-- Offset between the NTP epoch (1900) and the Unix epoch (1970) in
seconds; the untyped constant seventyYears of ntp.parse. -/
def seventyYears : Nat := 2208988800

/-- The big-endian 32-bit transmit timestamp read from bytes 40 to 43, as
in ntp.parse. -/
def be32 (d : List Nat) : Nat :=
  ((d.getD 40 0) <<< 24) ||| ((d.getD 41 0) <<< 16) |||
    ((d.getD 42 0) <<< 8) ||| d.getD 43 0

/-- ntp.parse, seconds part: t - seventyYears is computed in uint32
arithmetic (both operands are uint32), then widened to int64 and given to
time.Unix. -/
def parseSecs (d : List Nat) : Nat :=
  (be32 d + (2 ^ 32 - seventyYears)) % 2 ^ 32

/-- ntp.parse as a Unix-seconds instant. -/
def parseTime (d : List Nat) : Int :=
  (parseSecs d : Int)

/-- A response buffer whose transmit timestamp bytes 40 to 43 are the
example bytes 0xD3 0x4A 0x9F 0x80. -/
def exampleResponse : List Nat :=
  List.replicate 40 0 ++ [0xD3, 0x4A, 0x9F, 0x80] ++ [0, 0, 0, 0]

/-- Errors of packages wifi and ntp; other covers propagated driver and
socket errors. -/
inductive Err where
  | connectToAP
  | noIPAddress
  | notConnected
  | readDatagramSize
  | readNoResponse
  | other (tag : Nat)
deriving DecidableEq, Repr

/-- Outcome of one conn.Read poll in the NTP read loop: a byte count or an
error. -/
inductive ReadResult where
  | bytes (count : Nat)
  | fail (e : Err)
deriving DecidableEq, Repr

/-- Timeout of the NTP read loop (time units). -/
def readTimeout : Nat := 2000

/-- Sleep between polls of the NTP read loop (time units). -/
def readPollInterval : Nat := 5

/-- Number of polls of the read loop: the loop condition
time.Since(start) <= timeout is checked with elapsed time 5i before poll i,
so polls run for 5i <= 2000, that is i = 0..400: 401 polls. -/
def readMaxPolls : Nat := readTimeout / readPollInterval + 1

/-- ntp.read, with remaining polls as the first argument and the index of
the next poll second. Exhausting the polls is the timeout branch. The Go
order of tests on each poll: an error returns it, a zero count continues,
a count other than datagramSize is ErrReadDatagramSize, otherwise the reply
is accepted. -/
def readLoopAux (poll : Nat → ReadResult) : Nat → Nat → Except Err Unit
  | 0, _ => .error .readNoResponse
  | f + 1, i =>
    match poll i with
    | .fail e => .error e
    | .bytes k =>
      if k = 0 then readLoopAux poll f (i + 1)
      else if k = datagramSize then .ok ()
      else .error .readDatagramSize

/-- ntp.read on a fresh call. -/
def ntpRead (poll : Nat → ReadResult) : Except Err Unit :=
  readLoopAux poll readMaxPolls 0

/-- Attempt ceiling of wifi.waitWithTimeout. -/
def maxAttempts : Nat := 8

/-- Base delay of wifi.waitWithTimeout (time units). -/
def baseTimeout : Nat := 125

/-- wifi.waitWithTimeout, one loop state per call: ok, attempt and timeout
as in the source (attempt is never incremented in the source body, and that
is preserved here), plus the poll index i and the accumulated list of sleep
delays. Sum.inl is a loop exit with the returned ok and the sleeps
performed; Sum.inr means the fuel ran out while the loop condition still
held, carrying the sleeps performed so far. The timeout doubling is exact
here; in the source it is an int64 shift, which cannot wrap before dozens
of iterations and never influences the loop condition. -/
def waitAux (ready : Nat → Bool) (fuel : Nat) (ok : Bool) (attempt timeout i : Nat)
    (sleeps : List Nat) : (Bool × List Nat) ⊕ List Nat :=
  if ok = false ∧ attempt < maxAttempts then
    match fuel with
    | 0 => Sum.inr sleeps
    | f + 1 =>
      if ready i then
        waitAux ready f true attempt timeout (i + 1) sleeps
      else
        waitAux ready f false attempt (timeout * 2) (i + 1) (sleeps ++ [timeout])
  else
    Sum.inl (ok, sleeps)

/-- wifi.waitWithTimeout from its initial state. -/
def waitWithTimeout (ready : Nat → Bool) (fuel : Nat) : (Bool × List Nat) ⊕ List Nat :=
  waitAux ready fuel false 0 baseTimeout 0 []

/-- wifi.Connect: the link wait, then the lease wait, then the model write.
The SetPassphrase call and the obtained address are abstracted: linkReady
and ipReady are the polled predicates, ipGot the address recorded by hasIP.
none means a wait loop was still running after the given fuel. -/
def Connect (linkReady ipReady : Nat → Bool) (fuel : Nat) (ap : AP) (ipGot : Nat)
    (ms : MState) : Option (Except Err Unit × MState) :=
  match waitWithTimeout linkReady fuel with
  | Sum.inr _ => none
  | Sum.inl (false, _) => some (.error .connectToAP, ms)
  | Sum.inl (true, _) =>
    match waitWithTimeout ipReady fuel with
    | Sum.inr _ => none
    | Sum.inl (false, _) => some (.error .noIPAddress, ms)
    | Sum.inl (true, _) =>
      some (.ok (), Set (fun m => { m with ap := ap, ip := ipGot }) ms)

/-- Impure inputs of one ntp.Sync call: the instants returned by the three
time.Now() calls, and the results of name resolution, net.DialUDP, and the
request round trip (write, read, parse; ok carries the parsed instant). -/
structure SyncEnv where
  now0 : Int
  now1 : Int
  now2 : Int
  resolve : String → Except Err Nat
  dial : Except Err Unit
  request : Except Err Int

/-- The fetch block of ntp.Sync (the systemExpired branch): model.Get for
the retry counter, server selection by retry mod server count, resolution,
dial, round trip, then lastSync update. Any error is returned with the
model state as left by the internal Get. runtime.AdjustTimeOffset only
touches the system clock and has no observable effect on the embedded
state. -/
def fetchStep (env : SyncEnv) (n : NTP) (ms : MState) : Except Err NTP × MState :=
  let r := Get ms
  let m := r.1.2
  let ms1 := r.2
  let idx := m.retry % n.config.server.length
  match env.resolve (n.config.server.getD idx "") with
  | .error e => (.error e, ms1)
  | .ok _ =>
    match env.dial with
    | .error e => (.error e, ms1)
    | .ok _ =>
      match env.request with
      | .error e => (.error e, ms1)
      | .ok _ => (.ok { n with lastSync := env.now1 }, ms1)

/-- The publish block of ntp.Sync (the modelExpired branch): lastPost is set
to the current instant and written into the model time via model.Set. The
In(locale) conversion changes only the displayed zone, not the instant. -/
def publishStep (env : SyncEnv) (modelExpired : Bool) (n : NTP) (ms : MState) :
    Except Err Unit × NTP × MState :=
  if modelExpired then
    let n1 := { n with lastPost := env.now2 }
    (.ok (), n1, Set (fun m => { m with time := n1.lastPost }) ms)
  else
    (.ok (), n, ms)

/-- ntp.Sync: both expirations are evaluated at now0; a due fetch runs
first and any of its errors returns immediately, skipping the publish
block; otherwise the publish block runs if due. -/
def Sync (env : SyncEnv) (n : NTP) (ms : MState) : Except Err Unit × NTP × MState :=
  let ex := n.isExpiredAt env.now0
  if ex.1 then
    match fetchStep env n ms with
    | (.error e, ms1) => (.error e, n, ms1)
    | (.ok n1, ms1) => publishStep env ex.2 n1 ms1
  else
    publishStep env ex.2 n ms

/-- The StatusConnecting branch of run.Run: for each access point in order,
attempt a connection; a failure only logs, a success sets the status to
StatusUnsynchronized via model.Set. The loop body has no early exit.
Returns the final model state and the list of candidates on which a connect
was attempted. -/
def runConnecting (connect : AP → Except Err Unit) : List AP → MState → MState × List AP
  | [], ms => (ms, [])
  | ap :: rest, ms =>
    let ms1 :=
      match connect ap with
      | .error _ => ms
      | .ok _ => Set (fun m => { m with status := .unsynchronized }) ms
    let r := runConnecting connect rest ms1
    (r.1, ap :: r.2)

/-- Concrete configuration used by the closed instances below: the default
servers and ports, a 100-unit fetch interval and a 5-unit publish
precision. -/
def cfg0 : Config :=
  { server := ["us.pool.ntp.org", "time.google.com"], remotePort := 123,
    localPort := 2390, tzOffset := -21600, interval := 100, precision := 5,
    leapSmear := false }

/-- Concrete access points. -/
def apA : AP := { ssid := "alpha", pass := "a" }

/-- Second concrete access point. -/
def apB : AP := { ssid := "beta", pass := "b" }

/-- Concrete model data in the unsynchronized state with a sentinel time. -/
def model0 : Model :=
  { ap := apA, ip := 0, time := 7, retry := 0, status := .unsynchronized }

/-- Concrete NTP session that has never fetched nor published. -/
def ntp0 : NTP :=
  { config := cfg0, lastSync := 0, lastPost := 0,
    datagram := List.replicate datagramSize 0 }

/-- Sync inputs where both expirations are due and resolution fails. -/
def envFail : SyncEnv :=
  { now0 := 1000000, now1 := 1000001, now2 := 1000002,
    resolve := fun _ => .error .notConnected, dial := .ok (),
    request := .ok 42 }

/-- Sync inputs where both expirations are due and every step succeeds. -/
def envOk : SyncEnv :=
  { now0 := 1000000, now1 := 1000001, now2 := 1000002,
    resolve := fun _ => .ok 9, dial := .ok (),
    request := .ok 999000 }

/-- A connect oracle that succeeds exactly on the first candidate. -/
def connectOkFirst : AP → Except Err Unit :=
  fun ap => if ap.ssid = "alpha" then .ok () else .error .connectToAP

/-- A connect oracle that fails on every candidate. -/
def connectAllFail : AP → Except Err Unit :=
  fun _ => .error .connectToAP

/-- A read poll whose third poll delivers a full datagram. -/
def pollLate : Nat → ReadResult :=
  fun i => if i = 2 then .bytes 48 else .bytes 0

/-- Concrete model state in the Connecting status with a clear flag. -/
def msConn : MState :=
  { data := { model0 with status := .connecting }, changed := false }

/-- The server hostname the fetch block selects: index Retry modulo the
server count, with Retry taken from the model snapshot the internal Get
returns. -/
def selectedServer (n : NTP) (ms : MState) : String :=
  n.config.server.getD (ms.data.retry % n.config.server.length) ""

/-- The fetch block fails with error e at one of its three fallible stages:
name resolution, socket open (net.DialUDP), or the request round trip
(conn.Write, the read loop, or any other socket error), each later stage
taken with the earlier ones succeeding. -/
def fetchFailsWith (env : SyncEnv) (n : NTP) (ms : MState) (e : Err) : Prop :=
  env.resolve (selectedServer n ms) = .error e ∨
  ((∃ ip, env.resolve (selectedServer n ms) = .ok ip) ∧ env.dial = .error e) ∨
  ((∃ ip, env.resolve (selectedServer n ms) = .ok ip) ∧ env.dial = .ok () ∧
    env.request = .error e)

/-- Every fallible stage of the fetch block succeeds. -/
def fetchSucceeds (env : SyncEnv) (n : NTP) (ms : MState) : Prop :=
  (∃ ip, env.resolve (selectedServer n ms) = .ok ip) ∧
  env.dial = .ok () ∧ ∃ t, env.request = .ok t

theorem dreset_eq_replicate (d : List Nat) : dreset d = List.replicate d.length 0 := by
  simp [dreset]

theorem writeRequest_eq_expected (ls : Bool) (d : List Nat) (h : d.length = 48) :
    writeRequest ls d = expectedRequest := by
  have hd : dreset d = List.replicate 48 0 := by rw [dreset_eq_replicate, h]
  unfold writeRequest
  rw [hd]
  cases ls <;> rfl

/-- C5: after Set, the next Get returns changed true together with a copy of
the snapshot and clears the flag, so a further Get with no intervening
write returns changed false; and Mod leaves the flag exactly as it was, so
Mod alone never causes a subsequent Get to return changed true. -/
theorem shared_state_change_flag (s : MState) (f g : Model → Model) :
    (Get (Set f s)).1.1 = true ∧
    (Get (Set f s)).1.2 = f s.data ∧
    (Get ((Get (Set f s)).2)).1.1 = false ∧
    (Get (Mod g s)).1.1 = s.changed :=
  ⟨rfl, rfl, rfl, rfl⟩

/-- C4: evaluation of isExpired at the inputs of the claim. With since the
zero value, current time 1 and span 2 the code returns false, because the
zero test of the source is applied to the current time argument rather than
to since; the two boundary facts hold: isExpired at the exact boundary
now - span is true and one unit inside the span is false. -/
theorem isExpired_zero_since_eval :
    isExpired 1 0 2 = false ∧ isExpired 100 98 2 = true ∧ isExpired 100 99 2 = false := by
  decide

/-- C8: for every leap smear setting and every 48-byte buffer, the request
built by write has byte 0 equal to 0b11100011 (the alarm bits OR-ed in when
the server does not leap smear leave it unchanged), stratum 0, poll 6,
precision 0xEC, reference identifier bytes 49 0x4E 49 52 at offsets 12 to
15, and zero everywhere else. -/
theorem ntp_request_bytes (ls : Bool) (d : List Nat) (h : d.length = 48) :
    writeRequest ls d = expectedRequest :=
  writeRequest_eq_expected ls d h

/-- Witness for ntp_request_bytes at both leap smear settings on a concrete
buffer. -/
theorem ntp_request_bytes_witness :
    writeRequest true (List.replicate 48 0) = expectedRequest ∧
    writeRequest false (List.replicate 48 0) = expectedRequest :=
  ⟨ntp_request_bytes true (List.replicate 48 0) (by simp),
   ntp_request_bytes false (List.replicate 48 0) (by simp)⟩

/-- C10: two configurations differing only in the LeapSmear flag build
byte-for-byte identical request datagrams, and byte 0 is 0b11100011 in both
runs, since OR-ing 0b00000011 into 0b11100011 changes nothing. -/
theorem leap_smear_has_no_request_effect (ls1 ls2 : Bool) (d : List Nat)
    (h : d.length = 48) :
    writeRequest ls1 d = writeRequest ls2 d ∧
    (writeRequest ls1 d).getD 0 0 = 0b11100011 := by
  have h1 := writeRequest_eq_expected ls1 d h
  have h2 := writeRequest_eq_expected ls2 d h
  rw [h1, h2]
  exact ⟨rfl, rfl⟩

/-- Witness for leap_smear_has_no_request_effect on a concrete buffer. -/
theorem leap_smear_has_no_request_effect_witness :
    writeRequest false (List.replicate 48 0) = writeRequest true (List.replicate 48 0) ∧
    (writeRequest false (List.replicate 48 0)).getD 0 0 = 0b11100011 :=
  leap_smear_has_no_request_effect false true (List.replicate 48 0) (by simp)

/-- C9 counterexample: on the all-zero response the transmit timestamp is 0
and parse yields 2085978496 seconds, the uint32 wrap of 0 - 2208988800; the
claimed plain subtraction would give the negative instant -2208988800. -/
theorem ntp_parse_wrap_cex :
    be32 (List.replicate 48 0) = 0 ∧
    parseTime (List.replicate 48 0) = 2085978496 ∧
    (2085978496 : Int) ≠ (0 : Int) - 2208988800 :=
  ⟨rfl, rfl, by decide⟩

/-- C9 (amended): parse reads bytes 40 to 43 as a big-endian 32-bit count
and subtracts 2208988800 in uint32 arithmetic, which agrees with the plain
subtraction whenever the timestamp is at least 2208988800 (every instant
from 1970 on through the era wrap); the result depends only on bytes 40 to
43, so the fraction bytes 44 to 47 are ignored; and the example bytes 0xD3
0x4A 0x9F 0x80 parse to Unix(0xD34A9F80 - 2208988800). -/
theorem ntp_parse_transmit_timestamp (d : List Nat)
    (hge : seventyYears ≤ be32 d) (hlt : be32 d < 2 ^ 32) :
    parseTime d = (be32 d : Int) - (seventyYears : Int) ∧
    (∀ d2 : List Nat, d.getD 40 0 = d2.getD 40 0 → d.getD 41 0 = d2.getD 41 0 →
      d.getD 42 0 = d2.getD 42 0 → d.getD 43 0 = d2.getD 43 0 →
      parseTime d = parseTime d2) ∧
    parseTime exampleResponse = (0xD34A9F80 : Int) - (2208988800 : Int) := by
  refine ⟨?_, ?_, by decide⟩
  · unfold seventyYears at hge
    unfold parseTime parseSecs seventyYears
    generalize be32 d = x at hge hlt ⊢
    omega
  · intro d2 h40 h41 h42 h43
    unfold parseTime parseSecs be32
    rw [h40, h41, h42, h43]

/-- Witness for ntp_parse_transmit_timestamp at the example response. -/
theorem ntp_parse_transmit_timestamp_witness :
    parseTime exampleResponse = (be32 exampleResponse : Int) - (seventyYears : Int) :=
  (ntp_parse_transmit_timestamp exampleResponse (by decide) (by decide)).1

theorem waitAux_never_ready (fuel : Nat) :
    ∀ (t i : Nat) (acc : List Nat),
      waitAux (fun _ => false) fuel false 0 t i acc =
        Sum.inr (acc ++ (List.range fuel).map fun j => t * 2 ^ j) := by
  induction fuel with
  | zero =>
    intro t i acc
    simp [waitAux, maxAttempts]
  | succ f ih =>
    intro t i acc
    rw [waitAux]
    simp only [maxAttempts, Nat.ofNat_pos, and_true, if_pos rfl, Bool.false_eq_true,
      if_false]
    rw [ih (t * 2) (i + 1) (acc ++ [t])]
    have hmap : (List.range (f + 1)).map (fun j => t * 2 ^ j) =
        t :: (List.range f).map fun j => t * 2 * 2 ^ j := by
      rw [List.range_succ_eq_map]
      simp only [List.map_cons, pow_zero, mul_one, List.map_map]
      refine congrArg (List.cons t) (congrArg (fun fn => List.map fn (List.range f)) ?_)
      funext j
      simp [Function.comp, pow_succ]
      ring
    rw [hmap]
    simp

/-- C1: the attempt counter of wifi.waitWithTimeout is never incremented, so
for a ready predicate that never returns true the wait loop never exits: for
every fuel the loop is still running and has slept the doubling delays 125,
250, ..., 125 times 2 to the fuel minus one; Connect therefore never
returns at all, in particular never returns the NoLink error ErrConnectToAP;
and after the eight sleeps 125 through 16000 claimed as the whole budget,
the loop performs a ninth sleep of 32000 instead of terminating. -/
theorem connect_wait_never_terminates (fuel : Nat) (ap : AP) (ipGot : Nat) (ms : MState) :
    waitWithTimeout (fun _ => false) fuel =
      Sum.inr ((List.range fuel).map fun j => baseTimeout * 2 ^ j) ∧
    Connect (fun _ => false) (fun _ => false) fuel ap ipGot ms = none ∧
    waitWithTimeout (fun _ => false) 9 =
      Sum.inr [125, 250, 500, 1000, 2000, 4000, 8000, 16000, 32000] := by
  have h := waitAux_never_ready fuel baseTimeout 0 []
  refine ⟨by simpa [waitWithTimeout] using h, ?_, ?_⟩
  · unfold Connect
    rw [show waitWithTimeout (fun _ => false) fuel =
      Sum.inr ((List.range fuel).map fun j => baseTimeout * 2 ^ j) by
        simpa [waitWithTimeout] using h]
  · have h9 := waitAux_never_ready 9 baseTimeout 0 []
    rw [waitWithTimeout, h9]
    rfl

theorem readLoopAux_all_zero (poll : Nat → ReadResult)
    (hz : ∀ k, poll k = ReadResult.bytes 0) :
    ∀ (f i : Nat), readLoopAux poll f i = .error .readNoResponse := by
  intro f
  induction f with
  | zero => intro i; rfl
  | succ g ih =>
    intro i
    simp only [readLoopAux, hz i, if_pos rfl]
    exact ih (i + 1)

theorem readLoopAux_skip (poll : Nat → ReadResult) :
    ∀ (j f i : Nat), (∀ k, k < j → poll (i + k) = ReadResult.bytes 0) →
      readLoopAux poll (j + f) i = readLoopAux poll f (i + j) := by
  intro j
  induction j with
  | zero =>
    intro f i _
    simp
  | succ j ih =>
    intro f i hz
    have h0 : poll i = ReadResult.bytes 0 := by
      have := hz 0 (Nat.succ_pos j)
      simpa using this
    have e1 : j + 1 + f = (j + f) + 1 := by omega
    rw [e1]
    simp only [readLoopAux, h0, if_pos rfl]
    have hz2 : ∀ k, k < j → poll (i + 1 + k) = ReadResult.bytes 0 := by
      intro k hk
      have := hz (k + 1) (by omega)
      have e2 : i + (k + 1) = i + 1 + k := by omega
      rw [e2] at this
      exact this
    have e3 : i + 1 + j = i + (j + 1) := by omega
    rw [ih f (i + 1) hz2, e3]
    simp

theorem readLoopAux_ok (poll : Nat → ReadResult) :
    ∀ (f i : Nat), readLoopAux poll f i = .ok () →
      ∃ m, i ≤ m ∧ m < i + f ∧ poll m = ReadResult.bytes 48 := by
  intro f
  induction f with
  | zero =>
    intro i h
    exact absurd h (by simp [readLoopAux])
  | succ g ih =>
    intro i h
    simp only [readLoopAux] at h
    cases hp : poll i with
    | fail e =>
      rw [hp] at h
      simp at h
    | bytes c =>
      rw [hp] at h
      simp only at h
      by_cases hc0 : c = 0
      · rw [if_pos hc0] at h
        obtain ⟨m, h1, h2, h3⟩ := ih (i + 1) h
        exact ⟨m, by omega, by omega, h3⟩
      · rw [if_neg hc0] at h
        by_cases hck : c = datagramSize
        · refine ⟨i, le_refl i, by omega, ?_⟩
          rw [hp, hck]
          rfl
        · rw [if_neg hck] at h
          simp at h

/-- C7: the read loop polls at most 401 times (one poll per 5-unit sleep
while elapsed time is within the 2-second budget) and fails with
ErrReadNoResponse when every poll returns no bytes; the first nonempty poll
within the budget decides the call: a read error is returned immediately, a
datagram whose size is not exactly 48 fails with ErrReadDatagramSize, and a
48-byte datagram succeeds; moreover a success implies some poll within the
budget returned exactly 48 bytes. -/
theorem ntp_read_loop_spec (poll : Nat → ReadResult) (j c : Nat) (e : Err)
    (hj : j ≤ 400) (hz : ∀ k, k < j → poll k = ReadResult.bytes 0) :
    ((∀ k, poll k = ReadResult.bytes 0) → ntpRead poll = .error .readNoResponse) ∧
    (poll j = ReadResult.fail e → ntpRead poll = .error e) ∧
    (poll j = ReadResult.bytes c → c ≠ 0 → c ≠ 48 →
      ntpRead poll = .error .readDatagramSize) ∧
    (poll j = ReadResult.bytes 48 → ntpRead poll = .ok ()) ∧
    (ntpRead poll = .ok () → ∃ m, m ≤ 400 ∧ poll m = ReadResult.bytes 48) := by
  have hsplit : ntpRead poll = readLoopAux poll (401 - j) j := by
    have e1 : readMaxPolls = j + (401 - j) := by
      unfold readMaxPolls readTimeout readPollInterval
      omega
    have hz0 : ∀ k, k < j → poll (0 + k) = ReadResult.bytes 0 := by
      intro k hk
      rw [Nat.zero_add]
      exact hz k hk
    rw [ntpRead, e1, readLoopAux_skip poll j (401 - j) 0 hz0, Nat.zero_add]
  have e2 : 401 - j = (400 - j) + 1 := by omega
  refine ⟨fun hall => by rw [ntpRead]; exact readLoopAux_all_zero poll hall _ _,
    ?_, ?_, ?_, ?_⟩
  · intro hp
    rw [hsplit, e2]
    simp only [readLoopAux, hp]
  · intro hp hc0 hc48
    rw [hsplit, e2]
    simp only [readLoopAux, hp]
    rw [if_neg hc0, if_neg (show ¬c = datagramSize from hc48)]
  · intro hp
    rw [hsplit, e2]
    simp only [readLoopAux, hp]
    rfl
  · intro hok
    rw [ntpRead] at hok
    obtain ⟨m, _, h2, h3⟩ := readLoopAux_ok poll readMaxPolls 0 hok
    refine ⟨m, ?_, h3⟩
    have : readMaxPolls = 401 := rfl
    omega

/-- Witness for ntp_read_loop_spec: a poll stream whose third poll delivers
a 48-byte datagram makes the read succeed. -/
theorem ntp_read_loop_spec_witness : ntpRead pollLate = .ok () :=
  (ntp_read_loop_spec pollLate 2 48 Err.notConnected (by omega)
    (by decide)).2.2.2.1 rfl

/-- C2 counterexample: with both the fetch and the publish due, a failure at
resolution makes Sync return that failure with the publish step skipped:
the model time keeps its prior value 7 (no write into SharedState) and
lastPost stays 0 (lastPublish not updated). -/
theorem sync_fetch_failure_blocks_publish_cex :
    (ntp0.isExpiredAt envFail.now0).1 = true ∧
    (ntp0.isExpiredAt envFail.now0).2 = true ∧
    (Sync envFail ntp0 { data := model0, changed := false }).1 = .error .notConnected ∧
    (Sync envFail ntp0 { data := model0, changed := false }).2.1.lastPost = 0 ∧
    (Sync envFail ntp0 { data := model0, changed := false }).2.2.data.time = 7 :=
  ⟨by decide, by decide, rfl, rfl, rfl⟩

/-- C2 (amended): first, when the fetch is due and fails at any of its
fallible stages - resolution, socket open, or the send and receive round
trip - Sync aborts with that error before reaching the publish block: the
NTP session state is returned unchanged (neither lastSync nor lastPost is
touched) and the model data is unchanged (no time is written), whether or
not the publish was due. Second, the publish using the previously fetched
clock does run when the fetch is not due and the publish is due: the time
is written into the model via Set and lastPost is updated. Third, the same
publish runs when the fetch is due, succeeds, and the publish is due, with
lastSync also updated. -/
theorem sync_fetch_failure_aborts (env : SyncEnv) (n : NTP) (ms : MState) (e : Err) :
    ((n.isExpiredAt env.now0).1 = true → fetchFailsWith env n ms e →
      (Sync env n ms).1 = .error e ∧
      (Sync env n ms).2.1 = n ∧
      (Sync env n ms).2.2.data = ms.data) ∧
    ((n.isExpiredAt env.now0).1 = false → (n.isExpiredAt env.now0).2 = true →
      (Sync env n ms).1 = .ok () ∧
      (Sync env n ms).2.1.lastPost = env.now2 ∧
      (Sync env n ms).2.2.data.time = env.now2 ∧
      (Sync env n ms).2.2.changed = true) ∧
    ((n.isExpiredAt env.now0).1 = true → (n.isExpiredAt env.now0).2 = true →
      fetchSucceeds env n ms →
      (Sync env n ms).1 = .ok () ∧
      (Sync env n ms).2.1.lastSync = env.now1 ∧
      (Sync env n ms).2.1.lastPost = env.now2 ∧
      (Sync env n ms).2.2.data.time = env.now2 ∧
      (Sync env n ms).2.2.changed = true) := by
  refine ⟨?_, ?_, ?_⟩
  · intro hdue hfail
    rcases hfail with hres | ⟨⟨ip, hip⟩, hdial⟩ | ⟨⟨ip, hip⟩, hdial, hreq⟩
    · simp only [selectedServer] at hres
      simp only [Sync, fetchStep, Get, hdue, if_true, hres]
      exact ⟨trivial, trivial, trivial⟩
    · simp only [selectedServer] at hip
      simp only [Sync, fetchStep, Get, hdue, if_true, hip, hdial]
      exact ⟨trivial, trivial, trivial⟩
    · simp only [selectedServer] at hip
      simp only [Sync, fetchStep, Get, hdue, if_true, hip, hdial, hreq]
      exact ⟨trivial, trivial, trivial⟩
  · intro hdueF hpub
    simp [Sync, publishStep, Set, hdueF, hpub]
  · intro hdue hpub hsucc
    rcases hsucc with ⟨⟨ip, hip⟩, hdial, t, hreq⟩
    simp only [selectedServer] at hip
    simp only [Sync, fetchStep, Get, hdue, if_true, hip, hdial, hreq, publishStep,
      hpub, Set]
    exact ⟨trivial, trivial, trivial, trivial, trivial⟩

/-- Witness for sync_fetch_failure_aborts: at the concrete failing inputs
the fetch-failure part aborts the call with the model data and session
state unchanged, and at the concrete succeeding inputs the fetch-success
part publishes the time and updates lastSync and lastPost. -/
theorem sync_fetch_failure_aborts_witness :
    ((Sync envFail ntp0 { data := model0, changed := true }).1 = .error .notConnected ∧
      (Sync envFail ntp0 { data := model0, changed := true }).2.1 = ntp0 ∧
      (Sync envFail ntp0 { data := model0, changed := true }).2.2.data = model0) ∧
    ((Sync envOk ntp0 { data := model0, changed := true }).1 = .ok () ∧
      (Sync envOk ntp0 { data := model0, changed := true }).2.1.lastSync = envOk.now1 ∧
      (Sync envOk ntp0 { data := model0, changed := true }).2.1.lastPost = envOk.now2 ∧
      (Sync envOk ntp0 { data := model0, changed := true }).2.2.data.time = envOk.now2 ∧
      (Sync envOk ntp0 { data := model0, changed := true }).2.2.changed = true) :=
  ⟨(sync_fetch_failure_aborts envFail ntp0 { data := model0, changed := true }
      .notConnected).1 (by decide) (Or.inl rfl),
   (sync_fetch_failure_aborts envOk ntp0 { data := model0, changed := true }
      .notConnected).2.2 (by decide) (by decide) ⟨⟨9, rfl⟩, rfl, 999000, rfl⟩⟩

/-- C6 counterexample: a fetch-due Sync in which the fetch succeeds and the
publish is due ends with the change flag set again (the publish Set raises
it), so the next Controller read observes changed = true, not changed =
false as the claim asserts for every fetch-due call. -/
theorem sync_change_flag_cex :
    (ntp0.isExpiredAt envOk.now0).1 = true ∧
    (Sync envOk ntp0 { data := model0, changed := true }).2.2.changed = true :=
  ⟨by decide, rfl⟩

/-- C6 (amended): whenever the fetch is due, Sync reads the model through
Get to obtain the retry counter, and that read clears the change flag with
no renderer involvement: after the fetch block the flag is false whatever
it was before; consequently, whenever Sync performs no later Set, that is
whenever it returns an error or the publish is not due, a change written
before the call is observed by the next Controller read as changed = false
and its notification is lost. When the publish block does run, its Set
raises the flag again. -/
theorem sync_consumes_change_notification (env : SyncEnv) (n : NTP) (ms : MState)
    (hdue : (n.isExpiredAt env.now0).1 = true) :
    (fetchStep env n ms).2.changed = false ∧
    (∀ e, (Sync env n ms).1 = .error e → (Sync env n ms).2.2.changed = false) ∧
    ((n.isExpiredAt env.now0).2 = false → (Sync env n ms).2.2.changed = false) := by
  have hflag : (fetchStep env n ms).2.changed = false := by
    simp only [fetchStep]
    split
    · simp [Get]
    · split
      · simp [Get]
      · split <;> simp [Get]
  refine ⟨hflag, ?_, ?_⟩
  · intro e he
    simp only [Sync, hdue, if_true] at he ⊢
    rcases hf : fetchStep env n ms with ⟨res, ms1⟩
    have hms1 : ms1.changed = false := by rw [hf] at hflag; exact hflag
    rcases res with e2 | n1
    · simpa using hms1
    · rw [hf] at he
      simp only [publishStep] at he
      by_cases hpub : (n.isExpiredAt env.now0).2 = true
      · rw [if_pos hpub] at he
        simp at he
      · rw [if_neg hpub] at he
        simp at he
  · intro hpub
    simp only [Sync, hdue, if_true]
    rcases hf : fetchStep env n ms with ⟨res, ms1⟩
    have hms1 : ms1.changed = false := by rw [hf] at hflag; exact hflag
    rcases res with e2 | n1
    · simpa using hms1
    · simp only [publishStep, hpub]
      simpa using hms1

/-- Witness for sync_consumes_change_notification: with the fetch due and
failing, a change flag that was set before the call is cleared after it. -/
theorem sync_consumes_change_notification_witness :
    (Sync envFail ntp0 { data := model0, changed := true }).2.2.changed = false :=
  (sync_consumes_change_notification envFail ntp0 { data := model0, changed := true }
    (by decide)).2.1 .notConnected rfl

theorem runConnecting_preserves_unsync (connect : AP → Except Err Unit)
    (aps : List AP) :
    ∀ ms : MState, ms.data.status = .unsynchronized → ms.changed = true →
      (runConnecting connect aps ms).1.data.status = .unsynchronized ∧
      (runConnecting connect aps ms).1.changed = true := by
  induction aps with
  | nil => intro ms h1 h2; exact ⟨h1, h2⟩
  | cons ap rest ih =>
    intro ms h1 h2
    simp only [runConnecting]
    split
    · exact ih ms h1 h2
    · exact ih (Set (fun m => { m with status := .unsynchronized }) ms) rfl rfl

/-- C3 counterexample: with two configured candidates and a connect that
succeeds on the first, the Connecting branch still attempts a connect on
the second candidate: the attempted list is both candidates, while the
claim requires the loop to stop after the first success. -/
theorem run_connecting_no_early_exit_cex :
    connectOkFirst apA = .ok () ∧
    (runConnecting connectOkFirst [apA, apB] msConn).2 = [apA, apB] ∧
    ([apA, apB] : List AP) ≠ [apA] :=
  ⟨rfl, rfl, by decide⟩

/-- C3 (amended): on a Connecting change tick the Controller attempts a
connect on every configured candidate in the configured order, with no
early exit after a success; if at least one connect succeeds the final
status is Unsynchronized with the change flag raised (Set runs on each
success); if every connect fails the model state is untouched, so the
status remains Connecting. -/
theorem run_connecting_attempts_all (connect : AP → Except Err Unit)
    (aps : List AP) (ms : MState) :
    (runConnecting connect aps ms).2 = aps ∧
    ((∀ ap ∈ aps, connect ap ≠ .ok ()) → (runConnecting connect aps ms).1 = ms) ∧
    ((∃ ap ∈ aps, connect ap = .ok ()) →
      (runConnecting connect aps ms).1.data.status = .unsynchronized ∧
      (runConnecting connect aps ms).1.changed = true) := by
  induction aps generalizing ms with
  | nil =>
    refine ⟨rfl, fun _ => rfl, ?_⟩
    rintro ⟨ap, hap, -⟩
    cases hap
  | cons ap rest ih =>
    refine ⟨?_, ?_, ?_⟩
    · simp only [runConnecting]
      split
      · exact congrArg (List.cons ap) (ih _).1
      · exact congrArg (List.cons ap) (ih _).1
    · intro hall
      have hap : connect ap ≠ .ok () := hall ap (List.mem_cons_self ap rest)
      simp only [runConnecting]
      rcases hc : connect ap with e | u
      · exact (ih ms).2.1 fun a ha => hall a (List.mem_cons_of_mem ap ha)
      · cases u
        exact absurd hc hap
    · rintro ⟨a, ha, hok⟩
      rcases List.mem_cons.mp ha with rfl | hmem
      · simp only [runConnecting, hok]
        exact runConnecting_preserves_unsync connect rest _ rfl rfl
      · simp only [runConnecting]
        split
        · exact (ih ms).2.2 ⟨a, hmem, hok⟩
        · exact runConnecting_preserves_unsync connect rest _ rfl rfl

/-- Witness for run_connecting_attempts_all: when every connect fails, both
candidates are attempted and the model state is unchanged. -/
theorem run_connecting_attempts_all_witness :
    (runConnecting connectAllFail [apA, apB] msConn).2 = [apA, apB] ∧
    (runConnecting connectAllFail [apA, apB] msConn).1 = msConn :=
  ⟨(run_connecting_attempts_all connectAllFail [apA, apB] msConn).1,
   (run_connecting_attempts_all connectAllFail [apA, apB] msConn).2.1
     (fun ap _ => by simp [connectAllFail])⟩

end Weatherhub
